import Mathlib

/-!
Verification of the skillscope-ai backend (src/index.js) against its
specification.  The development shallowly embeds the program's logic:

* `Json` and `jsonParse` model ECMAScript's JSON values and `JSON.parse`
  (an external runtime collaborator of the code under test);
* `fencedCapture` models the regex match
  `str.match(/3 backticks json \s ( [\s\S] lazy ) \s 3 backticks/)` used by
  `extractJson`, with JavaScript's leftmost-match backtracking semantics;
* `extractJson`, `analyzeResumeText`, `handleAnalyzeText`,
  `handleAnalyzeFile` and `startup` are translated from src/index.js, with
  the external collaborators (the Gemini client, the pdf and docx decoders)
  passed in as function parameters;
* `truthy` models JavaScript truthiness of a JSON value, which is what the
  handlers' checks of the form not-analysisResult actually test.
-/

/-- A JSON value as produced by `JSON.parse`.  A number is stored as a
mantissa/decimal-exponent pair: `num m e` denotes the number `m * 10 ^ e`
(JSON numeric literals are exact in this form). -/
inductive Json where
  | null : Json
  | bool (b : Bool) : Json
  | num (mantissa : Int) (exp10 : Int) : Json
  | str (s : String) : Json
  | arr (elems : List Json) : Json
  | obj (fields : List (String × Json)) : Json
deriving Repr

/-- JSON insignificant whitespace: space, tab, line feed, carriage return. -/
def isJsonWS (c : Char) : Bool :=
  c == ' ' || c == '\t' || c == '\n' || c == '\r'

/-- Drop leading JSON whitespace. -/
def skipWs : List Char → List Char
  | [] => []
  | c :: cs => if isJsonWS c then skipWs cs else c :: cs

/-- Numeric value of a decimal digit, `none` for other characters. -/
def digitVal? (c : Char) : Option Nat :=
  if 48 ≤ c.toNat ∧ c.toNat ≤ 57 then some (c.toNat - 48) else none

/-- Split off the longest leading run of decimal digits. -/
def takeDigits : List Char → List Nat × List Char
  | [] => ([], [])
  | c :: cs =>
    match digitVal? c with
    | some d =>
      match takeDigits cs with
      | (ds, r) => (d :: ds, r)
    | none => ([], c :: cs)

/-- Value of a digit list read in base 10. -/
def digitsToNat (ds : List Nat) : Nat :=
  ds.foldl (fun a d => a * 10 + d) 0

/-- Numeric value of a hexadecimal digit, `none` for other characters. -/
def hexVal? (c : Char) : Option Nat :=
  if 48 ≤ c.toNat ∧ c.toNat ≤ 57 then some (c.toNat - 48)
  else if 97 ≤ c.toNat ∧ c.toNat ≤ 102 then some (c.toNat - 87)
  else if 65 ≤ c.toNat ∧ c.toNat ≤ 70 then some (c.toNat - 55)
  else none

/-- Match an exact literal prefix, returning the remainder. -/
def expectLit : List Char → List Char → Option (List Char)
  | [], l => some l
  | _ :: _, [] => none
  | p :: ps, c :: cs => if c = p then expectLit ps cs else none

/-- Build a `Json.num` from sign, integer digits, fraction digits and a
signed decimal exponent. -/
def mkNum (neg : Bool) (intDs fracDs : List Nat) (expN : Nat) (expPos : Bool) : Json :=
  let m0 : Nat := digitsToNat (intDs ++ fracDs)
  let m : Int := if neg then -(m0 : Int) else (m0 : Int)
  let e : Int := (if expPos then (expN : Int) else -(expN : Int)) - (fracDs.length : Int)
  Json.num m e

/-- Parse the exponent digits of a JSON number (after `e`/`E`). -/
def parseExpDigits (neg : Bool) (intDs fracDs : List Nat) (l : List Char) :
    Option (Json × List Char) :=
  let (expPos, r1) :=
    match l with
    | '+' :: r => (true, r)
    | '-' :: r => (false, r)
    | _ => (true, l)
  match takeDigits r1 with
  | ([], _) => none
  | (eds, r2) => some (mkNum neg intDs fracDs (digitsToNat eds) expPos, r2)

/-- Parse the optional exponent part of a JSON number. -/
def parseExpPart (neg : Bool) (intDs fracDs : List Nat) (l : List Char) :
    Option (Json × List Char) :=
  match l with
  | 'e' :: r => parseExpDigits neg intDs fracDs r
  | 'E' :: r => parseExpDigits neg intDs fracDs r
  | _ => some (mkNum neg intDs fracDs 0 true, l)

/-- Parse the optional fraction part (and then exponent) of a JSON number. -/
def parseFracPart (neg : Bool) (intDs : List Nat) (l : List Char) :
    Option (Json × List Char) :=
  match l with
  | '.' :: rf =>
    match takeDigits rf with
    | ([], _) => none
    | (fds, r2) => parseExpPart neg intDs fds r2
  | _ => parseExpPart neg intDs [] l

/-- Parse a JSON number per the JSON grammar: optional minus, `0` or a
nonzero-led digit run, optional fraction, optional exponent.  A leading
zero is never followed by further integer digits (as in `JSON.parse`). -/
def parseNumber (l : List Char) : Option (Json × List Char) :=
  let (neg, l1) :=
    match l with
    | '-' :: r => (true, r)
    | _ => (false, l)
  match l1 with
  | [] => none
  | c :: cs =>
    match digitVal? c with
    | none => none
    | some d =>
      if d = 0 then
        parseFracPart neg [0] cs
      else
        match takeDigits l1 with
        | (ds, r1) => parseFracPart neg ds r1

/-- Parse the body of a JSON string after the opening quote; returns the
decoded characters and the remainder after the closing quote.  `\u` escapes
follow `JSON.parse`: a valid surrogate pair combines into one code point;
a lone surrogate (not representable as a Lean `Char`) is replaced by
U+FFFD. -/
def parseStringRest : Nat → List Char → Option (List Char × List Char)
  | 0, _ => none
  | _ + 1, [] => none
  | fuel + 1, c :: cs =>
    if c = '"' then some ([], cs)
    else if c = '\\' then
      match cs with
      | [] => none
      | e :: cs2 =>
        if e = '"' then
          match parseStringRest fuel cs2 with
          | some (out, r) => some ('"' :: out, r)
          | none => none
        else if e = '\\' then
          match parseStringRest fuel cs2 with
          | some (out, r) => some ('\\' :: out, r)
          | none => none
        else if e = '/' then
          match parseStringRest fuel cs2 with
          | some (out, r) => some ('/' :: out, r)
          | none => none
        else if e = 'b' then
          match parseStringRest fuel cs2 with
          | some (out, r) => some (Char.ofNat 8 :: out, r)
          | none => none
        else if e = 'f' then
          match parseStringRest fuel cs2 with
          | some (out, r) => some (Char.ofNat 12 :: out, r)
          | none => none
        else if e = 'n' then
          match parseStringRest fuel cs2 with
          | some (out, r) => some ('\n' :: out, r)
          | none => none
        else if e = 'r' then
          match parseStringRest fuel cs2 with
          | some (out, r) => some ('\r' :: out, r)
          | none => none
        else if e = 't' then
          match parseStringRest fuel cs2 with
          | some (out, r) => some ('\t' :: out, r)
          | none => none
        else if e = 'u' then
          match cs2 with
          | h1 :: h2 :: h3 :: h4 :: cs3 =>
            match hexVal? h1, hexVal? h2, hexVal? h3, hexVal? h4 with
            | some a, some b, some cc, some dd =>
              let n := ((a * 16 + b) * 16 + cc) * 16 + dd
              if 0xd800 ≤ n ∧ n ≤ 0xdbff then
                match cs3 with
                | '\\' :: 'u' :: k1 :: k2 :: k3 :: k4 :: cs4 =>
                  match hexVal? k1, hexVal? k2, hexVal? k3, hexVal? k4 with
                  | some p, some q, some u, some v =>
                    let m := ((p * 16 + q) * 16 + u) * 16 + v
                    if 0xdc00 ≤ m ∧ m ≤ 0xdfff then
                      match parseStringRest fuel cs4 with
                      | some (out, r) =>
                        some (Char.ofNat (0x10000 + (n - 0xd800) * 1024 + (m - 0xdc00)) :: out, r)
                      | none => none
                    else
                      match parseStringRest fuel cs3 with
                      | some (out, r) => some (Char.ofNat 0xfffd :: out, r)
                      | none => none
                  | _, _, _, _ =>
                    match parseStringRest fuel cs3 with
                    | some (out, r) => some (Char.ofNat 0xfffd :: out, r)
                    | none => none
                | _ =>
                  match parseStringRest fuel cs3 with
                  | some (out, r) => some (Char.ofNat 0xfffd :: out, r)
                  | none => none
              else if 0xdc00 ≤ n ∧ n ≤ 0xdfff then
                match parseStringRest fuel cs3 with
                | some (out, r) => some (Char.ofNat 0xfffd :: out, r)
                | none => none
              else
                match parseStringRest fuel cs3 with
                | some (out, r) => some (Char.ofNat n :: out, r)
                | none => none
            | _, _, _, _ => none
          | _ => none
        else none
    else if c.toNat < 32 then none
    else
      match parseStringRest fuel cs with
      | some (out, r) => some (c :: out, r)
      | none => none

mutual

/-- Parse one JSON value at the head of `l` (leading whitespace already
skipped), per the grammar accepted by `JSON.parse`. -/
def parseValue : Nat → List Char → Option (Json × List Char)
  | 0, _ => none
  | _ + 1, [] => none
  | fuel + 1, c :: cs =>
    if c = 'n' then
      match expectLit ['u', 'l', 'l'] cs with
      | some r => some (Json.null, r)
      | none => none
    else if c = 't' then
      match expectLit ['r', 'u', 'e'] cs with
      | some r => some (Json.bool true, r)
      | none => none
    else if c = 'f' then
      match expectLit ['a', 'l', 's', 'e'] cs with
      | some r => some (Json.bool false, r)
      | none => none
    else if c = '"' then
      match parseStringRest (fuel + 1) cs with
      | some (out, r) => some (Json.str (String.mk out), r)
      | none => none
    else if c = '[' then
      parseElems fuel (skipWs cs) true []
    else if c = Char.ofNat 123 then
      parseMembers fuel (skipWs cs) true []
    else
      parseNumber (c :: cs)

/-- Parse the elements of a JSON array after `[` (whitespace skipped);
`first` is true before any element has been read. -/
def parseElems : Nat → List Char → Bool → List Json → Option (Json × List Char)
  | 0, _, _, _ => none
  | _ + 1, [], _, _ => none
  | fuel + 1, c :: cs, first, acc =>
    if first ∧ c = ']' then some (Json.arr [], cs)
    else
      match parseValue fuel (c :: cs) with
      | none => none
      | some (v, r) =>
        match skipWs r with
        | ',' :: r2 => parseElems fuel (skipWs r2) false (acc ++ [v])
        | ']' :: r2 => some (Json.arr (acc ++ [v]), r2)
        | _ => none

/-- Parse the members of a JSON object after the opening brace (whitespace
skipped); `first` is true before any member has been read. -/
def parseMembers : Nat → List Char → Bool → List (String × Json) →
    Option (Json × List Char)
  | 0, _, _, _ => none
  | _ + 1, [], _, _ => none
  | fuel + 1, c :: cs, first, acc =>
    if first ∧ c = Char.ofNat 125 then some (Json.obj [], cs)
    else if c = '"' then
      match parseStringRest fuel cs with
      | none => none
      | some (k, r) =>
        match skipWs r with
        | ':' :: r2 =>
          match parseValue fuel (skipWs r2) with
          | none => none
          | some (v, r3) =>
            match skipWs r3 with
            | ',' :: r4 =>
              parseMembers fuel (skipWs r4) false (acc ++ [(String.mk k, v)])
            | c2 :: r4 =>
              if c2 = Char.ofNat 125 then
                some (Json.obj (acc ++ [(String.mk k, v)]), r4)
              else none
            | [] => none
        | _ => none
    else none

end

/-- Model of `JSON.parse`: parse a complete JSON text (one value,
surrounded by optional whitespace); any violation of the grammar yields
`none` (the thrown `SyntaxError`, which `extractJson` catches). -/
def jsonParse (s : String) : Option Json :=
  match parseValue (2 * s.data.length + 8) (skipWs s.data) with
  | some (v, r) => if skipWs r = [] then some v else none
  | none => none

/-- JavaScript regex whitespace class (the set matched by a backslash-s
atom): ASCII whitespace, NBSP, and the Unicode space separators. -/
def isJsSpace (c : Char) : Bool :=
  let n := c.toNat
  n == 32 || n == 9 || n == 10 || n == 11 || n == 12 || n == 13 ||
  n == 160 || n == 0x1680 ||
  (decide (0x2000 ≤ n) && decide (n ≤ 0x200a)) ||
  n == 0x2028 || n == 0x2029 || n == 0x202f || n == 0x205f ||
  n == 0x3000 || n == 0xfeff

/-- Length of the longest leading run of regex whitespace. -/
def wsRun : List Char → Nat
  | [] => 0
  | c :: cs => if isJsSpace c then wsRun cs + 1 else 0

/-- Whether `pat` is a prefix of `l`. -/
def startsWithL : List Char → List Char → Bool
  | [], _ => true
  | _ :: _, [] => false
  | p :: ps, c :: cs => p == c && startsWithL ps cs

/-- First `some` produced by `f` along the list, in order. -/
def firstSome? {α β : Type} : List α → (α → Option β) → Option β
  | [], _ => none
  | a :: rest, f =>
    match f a with
    | some b => some b
    | none => firstSome? rest f

/-- The list `[n, n-1, ..., 0]`: the order in which a greedy quantifier
offers its repetition counts while backtracking. -/
def countdown : Nat → List Nat
  | 0 => [0]
  | Nat.succ n => Nat.succ n :: countdown n

/-- The list `[0, 1, ..., n]`: the order in which a lazy quantifier offers
its repetition counts. -/
def upto (n : Nat) : List Nat := (countdown n).reverse

/-- The characters of the literal regex part after the opening fence tag. -/
def fenceJson : List Char := "```json".data

/-- The characters of the closing fence literal. -/
def fenceClose : List Char := "```".data

/-- Backtracking continuation of the `extractJson` regex after the literal
opening fence: greedy whitespace, then the lazy any-character capture
group, then greedy whitespace, then the closing fence.  Returns the
capture-group text of the first successful assignment in JavaScript's
backtracking order (greedy counts high to low, lazy counts low to high). -/
def tryCapture (t : List Char) : Option (List Char) :=
  firstSome? (countdown (wsRun t)) (fun k1 =>
    let u := t.drop k1
    firstSome? (upto u.length) (fun c =>
      let cap := u.take c
      let v := u.drop c
      firstSome? (countdown (wsRun v)) (fun k3 =>
        if startsWithL fenceClose (v.drop k3) then some cap else none)))

/-- Leftmost match of the `extractJson` regex over the whole input: the
first start position whose continuation succeeds wins, and yields its
capture group. -/
def fencedCaptureL (s : List Char) : Option (List Char) :=
  firstSome? (upto s.length) (fun i =>
    if startsWithL fenceJson (s.drop i) then tryCapture ((s.drop i).drop 7)
    else none)

/-- Model of `str.match(jsonRegex)` in `extractJson`: `none` when the regex
does not match, otherwise the text of capture group 1 (`match[1]`). -/
def fencedCapture (s : String) : Option String :=
  (fencedCaptureL s.data).map (fun cs => String.mk cs)

/-- Translation of `extractJson` (src/index.js lines 50-68): when the regex
matched and the capture (match[1]) is nonempty, parse the capture; in every
other case (no match, or an empty capture, which is falsy) parse the whole
string.  A parse failure is `none` (the JS function catches the error and
returns null). -/
def extractJson (str : String) : Option Json :=
  match fencedCapture str with
  | some cap => if cap = "" then jsonParse str else jsonParse cap
  | none => jsonParse str

/-- JavaScript truthiness of a JSON value (`NaN` cannot arise from
`JSON.parse`; a number is falsy exactly when its mantissa is zero). -/
def truthy : Json → Bool
  | Json.null => false
  | Json.bool b => b
  | Json.num m _ => m != 0
  | Json.str s => s != ""
  | Json.arr _ => true
  | Json.obj _ => true

/-- JavaScript falsiness of the value held by an `Option Json`, where
`none` stands for the JS `null` returned on failure: this is what the
handlers' `if (!analysisResult)` checks compute. -/
def jsFalsyResult : Option Json → Bool
  | none => true
  | some j => ! truthy j

/-- Outcome of the external Gemini call
`model.generateContent(prompt)` followed by `result.response.text()`:
either the reply text, or any thrown failure (network error, quota error,
any collaborator exception). -/
inductive ModelOutcome where
  | success (text : String) : ModelOutcome
  | failure : ModelOutcome

/-- The fixed prompt template of `analyzeResumeText` (src/index.js lines
76-108), with the resume text interpolated verbatim into its designated
section. -/
def buildPrompt (textToAnalyze : String) : String :=
  "\n        Analyze the resume text provided below. Based on the skills and experience, perform the following tasks:\n" ++
  "        1.  Identify the user's key skills.\n" ++
  "        2.  Suggest three relevant, in-demand job titles.\n" ++
  "        3.  For each job title, list the key required skills.\n" ++
  "        4.  Compare the user's skills with the job requirements to find the missing skills for each job.\n" ++
  "        5.  For each missing skill, recommend one specific online course from Coursera or Udemy, including the course name and a direct URL.\n" ++
  "\n" ++
  "        Return the output ONLY as a single, valid JSON object, enclosed in ```json ... ```. Do not include any introductory text or explanations outside of the JSON block.\n" ++
  "\n" ++
  "        The JSON structure must be:\n" ++
  "        \x7b\n" ++
  "          \"userSkills\": [\"Skill 1\", \"Skill 2\"],\n" ++
  "          \"jobSuggestions\": [\n" ++
  "            \x7b\n" ++
  "              \"title\": \"Job Title 1\",\n" ++
  "              \"requiredSkills\": [\"Skill A\", \"Skill B\", \"Skill C\"],\n" ++
  "              \"missingSkills\": [\n" ++
  "                \x7b\n" ++
  "                  \"skill\": \"Skill C\",\n" ++
  "                  \"recommendation\": \x7b\n" ++
  "                    \"course\": \"Course Name for Skill C\",\n" ++
  "                    \"url\": \"https://www.coursera.org/...\"\n" ++
  "                  \x7d\n" ++
  "                \x7d\n" ++
  "              ]\n" ++
  "            \x7d\n" ++
  "          ]\n" ++
  "        \x7d\n" ++
  "\n" ++
  "        --- Resume Text ---\n" ++
  "        " ++ textToAnalyze ++ "\n    "

/-- Translation of `analyzeResumeText` (src/index.js lines 75-120).  The
external model call is a parameter `generateContent`; a thrown failure is
caught and becomes `none` (the JS `null`); a reply is run through
`extractJson`. -/
def analyzeResumeText (generateContent : String → ModelOutcome)
    (textToAnalyze : String) : Option Json :=
  match generateContent (buildPrompt textToAnalyze) with
  | ModelOutcome.failure => none
  | ModelOutcome.success text => extractJson text

/-- Body of an HTTP response of the service: either an error envelope
`\x7b error: msg \x7d` or a success envelope `\x7b analysis: value \x7d`. -/
inductive ResponseBody where
  | error (msg : String) : ResponseBody
  | analysis (a : Json) : ResponseBody

/-- An HTTP response: status code and JSON body. -/
structure Response where
  status : Nat
  body : ResponseBody

/-- Translation of the `POST /api/analyze-text` handler (src/index.js lines
126-138).  `resumeText` is the request body's field (`none` when absent);
`if (!resumeText)` is true for a missing field or the empty string;
`if (!analysisResult)` is true for the JS `null` and for any falsy JSON
value. -/
def handleAnalyzeText (resumeText : Option String)
    (generateContent : String → ModelOutcome) : Response :=
  match resumeText with
  | none => Response.mk 400 (ResponseBody.error "Resume text is required")
  | some s =>
    if s = "" then Response.mk 400 (ResponseBody.error "Resume text is required")
    else
      match analyzeResumeText generateContent s with
      | none => Response.mk 500 (ResponseBody.error "Failed to analyze resume from text.")
      | some j =>
        if truthy j then Response.mk 200 (ResponseBody.analysis j)
        else Response.mk 500 (ResponseBody.error "Failed to analyze resume from text.")

/-- An uploaded file as multer presents it to the handler: the
caller-declared media type and the in-memory byte buffer. -/
structure UploadedFile where
  mimetype : String
  buffer : List Nat

/-- Outcome of an external document decoder applied to a byte buffer: the
extracted text, or a thrown exception. -/
inductive DecodeOutcome where
  | ok (text : String) : DecodeOutcome
  | exn : DecodeOutcome

/-- Tail of the `POST /api/analyze-file` handler after text extraction
succeeded (src/index.js lines 158-167): empty text check, then analysis. -/
def fileAnalysisStep (generateContent : String → ModelOutcome)
    (text : String) : Response :=
  if text = "" then
    Response.mk 500 (ResponseBody.error "Failed to extract text from the file.")
  else
    match analyzeResumeText generateContent text with
    | none => Response.mk 500 (ResponseBody.error "Failed to analyze resume from file.")
    | some j =>
      if truthy j then Response.mk 200 (ResponseBody.analysis j)
      else Response.mk 500 (ResponseBody.error "Failed to analyze resume from file.")

/-- Translation of the `POST /api/analyze-file` handler (src/index.js lines
141-173).  The two external decoders are parameters applied to the file's
buffer; a decoder exception lands in the catch block (500 internal error);
an unsupported declared media type returns 400 before any decoder runs. -/
def handleAnalyzeFile (file : Option UploadedFile)
    (pdf mammothExtractRawText : List Nat → DecodeOutcome)
    (generateContent : String → ModelOutcome) : Response :=
  match file with
  | none => Response.mk 400 (ResponseBody.error "No file uploaded.")
  | some f =>
    if f.mimetype = "application/pdf" then
      match pdf f.buffer with
      | DecodeOutcome.exn => Response.mk 500 (ResponseBody.error "An internal server error occurred.")
      | DecodeOutcome.ok t => fileAnalysisStep generateContent t
    else if f.mimetype = "application/vnd.openxmlformats-officedocument.wordprocessingml.document" then
      match mammothExtractRawText f.buffer with
      | DecodeOutcome.exn => Response.mk 500 (ResponseBody.error "An internal server error occurred.")
      | DecodeOutcome.ok t => fileAnalysisStep generateContent t
    else
      Response.mk 400 (ResponseBody.error "Unsupported file type. Please upload a PDF or DOCX file.")

/-- The environment variables the startup code reads (src/index.js lines
11 and 30): a field is `none` when the variable is unset. -/
structure Env where
  GEMINI_API_KEY : Option String
  PORT : Option String

/-- The value bound by `const port = process.env.PORT || 3000`: the
environment string when it is truthy, the number 3000 otherwise. -/
inductive PortValue where
  | str (s : String) : PortValue
  | num (n : Nat) : PortValue

/-- Evaluation of `process.env.PORT || 3000` (src/index.js line 11). -/
def port (env : Env) : PortValue :=
  match env.PORT with
  | none => PortValue.num 3000
  | some s => if s = "" then PortValue.num 3000 else PortValue.str s

/-- What the process does at startup: exit fatally, or serve on a port. -/
inductive StartupResult where
  | exit (code : Nat) : StartupResult
  | listen (p : PortValue) : StartupResult

/-- Translation of the startup sequence (src/index.js lines 11, 30-33,
176): `if (!process.env.GEMINI_API_KEY) process.exit(1)`, else
`app.listen(port)`. -/
def startup (env : Env) : StartupResult :=
  match env.GEMINI_API_KEY with
  | none => StartupResult.exit 1
  | some k => if k = "" then StartupResult.exit 1 else StartupResult.listen (port env)

/-- Field lookup in a JSON object's field list (first binding wins). -/
def getField : List (String × Json) → String → Option Json
  | [], _ => none
  | (k, v) :: rest, key => if k == key then some v else getField rest key

/-- Modelled from the spec: whether a JSON value is a sequence of strings
(spec section 3, the element type of `userSkills` and `requiredSkills`).
The code performs no such check; this definition exists only to compare
the code's behavior against the spec's `AnalysisResult` shape. -/
def isStringArray : Json → Bool
  | Json.arr xs =>
    xs.all (fun j =>
      match j with
      | Json.str _ => true
      | _ => false)
  | _ => false

/-- Modelled from the spec: the `recommendation` shape
`\x7b course: string, url: string \x7d` (spec section 3, MissingSkill). -/
def isRecommendation : Json → Bool
  | Json.obj fs =>
    (match getField fs "course" with
     | some (Json.str _) => true
     | _ => false) &&
    (match getField fs "url" with
     | some (Json.str _) => true
     | _ => false)
  | _ => false

/-- Modelled from the spec: the `MissingSkill` shape
`\x7b skill: string, recommendation: Recommendation \x7d`. -/
def isMissingSkill : Json → Bool
  | Json.obj fs =>
    (match getField fs "skill" with
     | some (Json.str _) => true
     | _ => false) &&
    (match getField fs "recommendation" with
     | some r => isRecommendation r
     | none => false)
  | _ => false

/-- Modelled from the spec: the `JobSuggestion` shape
`\x7b title: string, requiredSkills: string seq, missingSkills: MissingSkill seq \x7d`. -/
def isJobSuggestion : Json → Bool
  | Json.obj fs =>
    (match getField fs "title" with
     | some (Json.str _) => true
     | _ => false) &&
    (match getField fs "requiredSkills" with
     | some r => isStringArray r
     | none => false) &&
    (match getField fs "missingSkills" with
     | some (Json.arr ms) => ms.all isMissingSkill
     | _ => false)
  | _ => false

/-- Modelled from the spec: the full `AnalysisResult` shape
`\x7b userSkills: string seq, jobSuggestions: JobSuggestion seq \x7d`
(spec section 3).  The code never validates this shape. -/
def isWellFormedAnalysisResult : Json → Bool
  | Json.obj fs =>
    (match getField fs "userSkills" with
     | some u => isStringArray u
     | none => false) &&
    (match getField fs "jobSuggestions" with
     | some (Json.arr js) => js.all isJobSuggestion
     | _ => false)
  | _ => false

/-- Reduction of the text handler for a nonempty `resumeText` whose
analysis came back as the JS `null`. -/
theorem handleAnalyzeText_of_none {g : String → ModelOutcome} {s : String}
    (hs : s ≠ "") (h : analyzeResumeText g s = none) :
    handleAnalyzeText (some s) g =
      Response.mk 500 (ResponseBody.error "Failed to analyze resume from text.") := by
  simp [handleAnalyzeText, hs, h]

/-- Reduction of the text handler for a nonempty `resumeText` whose
analysis produced a JSON value. -/
theorem handleAnalyzeText_of_some {g : String → ModelOutcome} {s : String} {j : Json}
    (hs : s ≠ "") (h : analyzeResumeText g s = some j) :
    handleAnalyzeText (some s) g =
      (if truthy j then Response.mk 200 (ResponseBody.analysis j)
       else Response.mk 500 (ResponseBody.error "Failed to analyze resume from text.")) := by
  simp [handleAnalyzeText, hs, h]

/-- Reduction of the file-analysis tail for a nonempty extracted text whose
analysis came back as the JS `null`. -/
theorem fileAnalysisStep_of_none {g : String → ModelOutcome} {t : String}
    (ht : t ≠ "") (h : analyzeResumeText g t = none) :
    fileAnalysisStep g t =
      Response.mk 500 (ResponseBody.error "Failed to analyze resume from file.") := by
  simp [fileAnalysisStep, ht, h]

/-- Reduction of the file-analysis tail for a nonempty extracted text whose
analysis produced a JSON value. -/
theorem fileAnalysisStep_of_some {g : String → ModelOutcome} {t : String} {j : Json}
    (ht : t ≠ "") (h : analyzeResumeText g t = some j) :
    fileAnalysisStep g t =
      (if truthy j then Response.mk 200 (ResponseBody.analysis j)
       else Response.mk 500 (ResponseBody.error "Failed to analyze resume from file.")) := by
  simp [fileAnalysisStep, ht, h]

/-- Reduction of the file handler on a file whose declared media type is
the PDF one. -/
theorem handleAnalyzeFile_pdf {f : UploadedFile} {p d : List Nat → DecodeOutcome}
    {g : String → ModelOutcome} (hm : f.mimetype = "application/pdf") :
    handleAnalyzeFile (some f) p d g =
      (match p f.buffer with
       | DecodeOutcome.exn =>
         Response.mk 500 (ResponseBody.error "An internal server error occurred.")
       | DecodeOutcome.ok t => fileAnalysisStep g t) := by
  simp [handleAnalyzeFile, hm]

/-- Reduction of the file handler on a file whose declared media type is
the DOCX one. -/
theorem handleAnalyzeFile_docx {f : UploadedFile} {p d : List Nat → DecodeOutcome}
    {g : String → ModelOutcome}
    (hm : f.mimetype = "application/vnd.openxmlformats-officedocument.wordprocessingml.document") :
    handleAnalyzeFile (some f) p d g =
      (match d f.buffer with
       | DecodeOutcome.exn =>
         Response.mk 500 (ResponseBody.error "An internal server error occurred.")
       | DecodeOutcome.ok t => fileAnalysisStep g t) := by
  simp [handleAnalyzeFile, hm]

/-- Reduction of the file handler on any other declared media type. -/
theorem handleAnalyzeFile_other {f : UploadedFile} {p d : List Nat → DecodeOutcome}
    {g : String → ModelOutcome} (h1 : f.mimetype ≠ "application/pdf")
    (h2 : f.mimetype ≠ "application/vnd.openxmlformats-officedocument.wordprocessingml.document") :
    handleAnalyzeFile (some f) p d g =
      Response.mk 400 (ResponseBody.error "Unsupported file type. Please upload a PDF or DOCX file.") := by
  simp [handleAnalyzeFile, h1, h2]

/-- A 200 response of the file-analysis tail pins down the analysis value:
it is the recovered result and it is truthy. -/
theorem fileAnalysisStep_200 {g : String → ModelOutcome} {t : String} {a : Json}
    (h : fileAnalysisStep g t = Response.mk 200 (ResponseBody.analysis a)) :
    truthy a = true ∧ analyzeResumeText g t = some a := by
  by_cases ht : t = ""
  · subst ht
    simp [fileAnalysisStep] at h
  · cases hr : analyzeResumeText g t with
    | none => simp [fileAnalysisStep, ht, hr] at h
    | some j =>
      cases htr : truthy j with
      | false => simp [fileAnalysisStep, ht, hr, htr] at h
      | true =>
        simp [fileAnalysisStep, ht, hr, htr] at h
        subst h
        exact ⟨htr, rfl⟩

/-- C6 (confirmed): JSON Recovery on the three concrete inputs of the
spec: a fenced JSON block yields the object with field a mapped to 1, the
bare JSON text yields the same object, and a non-JSON string yields null. -/
theorem c6_thm :
    extractJson "```json\n\x7b\"a\":1\x7d\n```" = some (Json.obj [("a", Json.num 1 0)]) ∧
    extractJson "\x7b\"a\":1\x7d" = some (Json.obj [("a", Json.num 1 0)]) ∧
    extractJson "not json" = none :=
  ⟨rfl, rfl, rfl⟩

/-- C4 (counterexample): on the twelve-character input that is a JSON
string literal whose content is an empty fenced block, the regex does find
a json-tagged fenced block, its captured interior is empty and unparseable,
yet `extractJson` does not return null: it parses the entire string and
returns the JSON string.  This contradicts the claim that a found block's
interior is what is parsed and returned. -/
theorem c4_counterexample :
    fencedCapture "\"```json```\"" = some "" ∧
    jsonParse "" = none ∧
    extractJson "\"```json```\"" = some (Json.str "```json```") :=
  ⟨rfl, rfl, rfl⟩

/-- C4 (amended): `extractJson` first looks for a json-tagged fenced
block; if one is found and its captured interior is nonempty, that interior
is parsed and the result returned; if no block is found, or the found
block's captured interior is empty (a falsy `match[1]`), the entire string
is parsed instead; either parse failure yields null, and the function is
total — it never propagates a parse error. -/
theorem c4_thm (s cap : String) :
    (fencedCapture s = some cap → cap ≠ "" → extractJson s = jsonParse cap) ∧
    (fencedCapture s = none ∨ fencedCapture s = some "" →
      extractJson s = jsonParse s) := by
  constructor
  · intro h hne
    simp [extractJson, h, hne]
  · intro h
    rcases h with h | h <;> simp [extractJson, h]

/-- C4 (witness): the amended theorem applied to a concrete fenced input
with nonempty capture. -/
theorem c4_witness :
    extractJson "```json\n1```" = jsonParse "1" ∧ jsonParse "1" = some (Json.num 1 0) :=
  ⟨(c4_thm "```json\n1```" "1").1 rfl (by decide), rfl⟩

/-- C10 (confirmed): a json-tagged fenced block whose captured interior is
empty is treated as if no block were found: `extractJson` parses the whole
input instead, and on the concrete input consisting only of an empty
fenced block that whole-string parse fails, giving null. -/
theorem c10_thm :
    (∀ s : String, fencedCapture s = some "" → extractJson s = jsonParse s) ∧
    fencedCapture "```json\n```" = some "" ∧
    extractJson "```json\n```" = none := by
  refine ⟨?_, rfl, rfl⟩
  intro s h
  simp [extractJson, h]

/-- C10 (witness): the quantified part applied to the concrete input made
of an empty fenced block. -/
theorem c10_witness :
    extractJson "```json\n```" = jsonParse "```json\n```" :=
  c10_thm.1 "```json\n```" rfl

/-- C1 (counterexample): a model reply whose recovered JSON is the object
with the single field a mapped to 1 — truthy, but not a well-formed
`AnalysisResult` (no `userSkills`, no `jobSuggestions`) — is returned to
the caller with status 200, contradicting the claim that a malformed
result is never returned. -/
theorem c1_counterexample :
    handleAnalyzeText (some "x") (fun _ => ModelOutcome.success "\x7b\"a\":1\x7d") =
      Response.mk 200 (ResponseBody.analysis (Json.obj [("a", Json.num 1 0)])) ∧
    isWellFormedAnalysisResult (Json.obj [("a", Json.num 1 0)]) = false :=
  ⟨rfl, rfl⟩

/-- C1 (amended): a 200 response from either endpoint carries exactly the
JSON value recovered from the model reply, and that value is guaranteed
truthy — but its shape is not validated against `AnalysisResult`, so a
truthy malformed value is returned with 200; only an unrecoverable or
falsy reply makes the request fail. -/
theorem c1_thm :
    (∀ (rt : Option String) (g : String → ModelOutcome) (a : Json),
      handleAnalyzeText rt g = Response.mk 200 (ResponseBody.analysis a) →
      truthy a = true ∧ ∃ s, analyzeResumeText g s = some a) ∧
    (∀ (file : Option UploadedFile) (p d : List Nat → DecodeOutcome)
      (g : String → ModelOutcome) (a : Json),
      handleAnalyzeFile file p d g = Response.mk 200 (ResponseBody.analysis a) →
      truthy a = true ∧ ∃ t, analyzeResumeText g t = some a) := by
  constructor
  · intro rt g a h
    cases rt with
    | none => simp [handleAnalyzeText] at h
    | some s =>
      by_cases hs : s = ""
      · subst hs
        simp [handleAnalyzeText] at h
      · cases hr : analyzeResumeText g s with
        | none => simp [handleAnalyzeText, hs, hr] at h
        | some j =>
          cases htr : truthy j with
          | false => simp [handleAnalyzeText, hs, hr, htr] at h
          | true =>
            simp [handleAnalyzeText, hs, hr, htr] at h
            subst h
            exact ⟨htr, ⟨s, hr⟩⟩
  · intro file p d g a h
    cases file with
    | none => simp [handleAnalyzeFile] at h
    | some f =>
      by_cases h1 : f.mimetype = "application/pdf"
      · rw [handleAnalyzeFile_pdf h1] at h
        cases hp : p f.buffer with
        | exn => rw [hp] at h; simp at h
        | ok t =>
          rw [hp] at h
          have := fileAnalysisStep_200 h
          exact ⟨this.1, ⟨t, this.2⟩⟩
      · by_cases h2 : f.mimetype =
          "application/vnd.openxmlformats-officedocument.wordprocessingml.document"
        · rw [handleAnalyzeFile_docx h2] at h
          cases hp : d f.buffer with
          | exn => rw [hp] at h; simp at h
          | ok t =>
            rw [hp] at h
            have := fileAnalysisStep_200 h
            exact ⟨this.1, ⟨t, this.2⟩⟩
        · rw [handleAnalyzeFile_other h1 h2] at h
          simp at h

/-- C1 (witness): the amended theorem applied at a concrete 200 response
of the text endpoint. -/
theorem c1_witness :
    truthy (Json.arr [Json.num 1 0]) = true ∧
    ∃ s, analyzeResumeText (fun _ => ModelOutcome.success "[1]") s =
      some (Json.arr [Json.num 1 0]) :=
  c1_thm.1 (some "x") (fun _ => ModelOutcome.success "[1]")
    (Json.arr [Json.num 1 0]) rfl

/-- C2 (counterexample): a model reply of the JSON text 0 makes the
analyzer return the number 0 — not null — yet the text endpoint responds
500, contradicting the claim that any non-null analyzer result yields a
200 response. -/
theorem c2_counterexample :
    analyzeResumeText (fun _ => ModelOutcome.success "0") "x" = some (Json.num 0 0) ∧
    handleAnalyzeText (some "x") (fun _ => ModelOutcome.success "0") =
      Response.mk 500 (ResponseBody.error "Failed to analyze resume from text.") :=
  ⟨rfl, rfl⟩

/-- C2 (amended): for POST /api/analyze-text: a missing or empty
`resumeText` responds 400 with the required-text error, independently of
the model collaborator (the analyzer is never consulted); otherwise a
falsy analyzer result (the JS null, or a recovered falsy JSON value:
null, false, 0 or the empty string) responds 500 with the text-analysis
failure error; otherwise the response is 200 with the analyzer's result. -/
theorem c2_thm :
    (∀ g, handleAnalyzeText none g =
      Response.mk 400 (ResponseBody.error "Resume text is required")) ∧
    (∀ g, handleAnalyzeText (some "") g =
      Response.mk 400 (ResponseBody.error "Resume text is required")) ∧
    (∀ g s, s ≠ "" → jsFalsyResult (analyzeResumeText g s) = true →
      handleAnalyzeText (some s) g =
        Response.mk 500 (ResponseBody.error "Failed to analyze resume from text.")) ∧
    (∀ g s j, s ≠ "" → analyzeResumeText g s = some j → truthy j = true →
      handleAnalyzeText (some s) g = Response.mk 200 (ResponseBody.analysis j)) := by
  refine ⟨fun g => rfl, fun g => rfl, ?_, ?_⟩
  · intro g s hs hf
    cases h : analyzeResumeText g s with
    | none => exact handleAnalyzeText_of_none hs h
    | some j =>
      have ht : truthy j = false := by
        have := hf
        rw [h] at this
        simpa [jsFalsyResult] using this
      rw [handleAnalyzeText_of_some hs h, ht]
      simp
  · intro g s j hs h ht
    rw [handleAnalyzeText_of_some hs h, ht]
    simp

/-- C2 (witness): the amended theorem applied at concrete requests for
each branch. -/
theorem c2_witness :
    handleAnalyzeText none (fun _ => ModelOutcome.failure) =
      Response.mk 400 (ResponseBody.error "Resume text is required") ∧
    handleAnalyzeText (some "x") (fun _ => ModelOutcome.failure) =
      Response.mk 500 (ResponseBody.error "Failed to analyze resume from text.") ∧
    handleAnalyzeText (some "x") (fun _ => ModelOutcome.success "[1]") =
      Response.mk 200 (ResponseBody.analysis (Json.arr [Json.num 1 0])) :=
  ⟨c2_thm.1 _,
   c2_thm.2.2.1 _ "x" (by decide) rfl,
   c2_thm.2.2.2 _ "x" (Json.arr [Json.num 1 0]) (by decide) rfl rfl⟩

/-- C3 (counterexample): on the file route, a PDF whose extracted text is
nonempty and a model reply of the JSON text 0 make the analyzer return the
number 0 — not null — yet the endpoint responds 500, contradicting the
claim that any non-null analyzer result yields a 200 response. -/
theorem c3_counterexample :
    analyzeResumeText (fun _ => ModelOutcome.success "0") "resume" = some (Json.num 0 0) ∧
    handleAnalyzeFile (some (UploadedFile.mk "application/pdf" []))
      (fun _ => DecodeOutcome.ok "resume") (fun _ => DecodeOutcome.exn)
      (fun _ => ModelOutcome.success "0") =
      Response.mk 500 (ResponseBody.error "Failed to analyze resume from file.") :=
  ⟨rfl, rfl⟩

/-- C3 (amended): for POST /api/analyze-file the response is determined by
the first matching condition: no file → 400 no-file error; declared media
type neither PDF nor DOCX → 400 unsupported-type error; decoder exception
→ 500 internal error; extracted text empty → 500 extraction error; falsy
analyzer result (the JS null or a recovered falsy JSON value) → 500
file-analysis error; otherwise 200 with the analyzer's result. -/
theorem c3_thm :
    (∀ p d g, handleAnalyzeFile none p d g =
      Response.mk 400 (ResponseBody.error "No file uploaded.")) ∧
    (∀ f p d g, f.mimetype ≠ "application/pdf" →
      f.mimetype ≠ "application/vnd.openxmlformats-officedocument.wordprocessingml.document" →
      handleAnalyzeFile (some f) p d g =
        Response.mk 400 (ResponseBody.error "Unsupported file type. Please upload a PDF or DOCX file.")) ∧
    (∀ f p d g, f.mimetype = "application/pdf" → p f.buffer = DecodeOutcome.exn →
      handleAnalyzeFile (some f) p d g =
        Response.mk 500 (ResponseBody.error "An internal server error occurred.")) ∧
    (∀ f p d g,
      f.mimetype = "application/vnd.openxmlformats-officedocument.wordprocessingml.document" →
      d f.buffer = DecodeOutcome.exn →
      handleAnalyzeFile (some f) p d g =
        Response.mk 500 (ResponseBody.error "An internal server error occurred.")) ∧
    (∀ f p d g, f.mimetype = "application/pdf" → p f.buffer = DecodeOutcome.ok "" →
      handleAnalyzeFile (some f) p d g =
        Response.mk 500 (ResponseBody.error "Failed to extract text from the file.")) ∧
    (∀ f p d g,
      f.mimetype = "application/vnd.openxmlformats-officedocument.wordprocessingml.document" →
      d f.buffer = DecodeOutcome.ok "" →
      handleAnalyzeFile (some f) p d g =
        Response.mk 500 (ResponseBody.error "Failed to extract text from the file.")) ∧
    (∀ f p d g t, f.mimetype = "application/pdf" → p f.buffer = DecodeOutcome.ok t →
      t ≠ "" → jsFalsyResult (analyzeResumeText g t) = true →
      handleAnalyzeFile (some f) p d g =
        Response.mk 500 (ResponseBody.error "Failed to analyze resume from file.")) ∧
    (∀ f p d g t,
      f.mimetype = "application/vnd.openxmlformats-officedocument.wordprocessingml.document" →
      d f.buffer = DecodeOutcome.ok t →
      t ≠ "" → jsFalsyResult (analyzeResumeText g t) = true →
      handleAnalyzeFile (some f) p d g =
        Response.mk 500 (ResponseBody.error "Failed to analyze resume from file.")) ∧
    (∀ f p d g t j, f.mimetype = "application/pdf" → p f.buffer = DecodeOutcome.ok t →
      t ≠ "" → analyzeResumeText g t = some j → truthy j = true →
      handleAnalyzeFile (some f) p d g = Response.mk 200 (ResponseBody.analysis j)) ∧
    (∀ f p d g t j,
      f.mimetype = "application/vnd.openxmlformats-officedocument.wordprocessingml.document" →
      d f.buffer = DecodeOutcome.ok t →
      t ≠ "" → analyzeResumeText g t = some j → truthy j = true →
      handleAnalyzeFile (some f) p d g = Response.mk 200 (ResponseBody.analysis j)) := by
  have falsyStep : ∀ (g : String → ModelOutcome) (t : String), t ≠ "" →
      jsFalsyResult (analyzeResumeText g t) = true →
      fileAnalysisStep g t =
        Response.mk 500 (ResponseBody.error "Failed to analyze resume from file.") := by
    intro g t ht hf
    cases h : analyzeResumeText g t with
    | none => exact fileAnalysisStep_of_none ht h
    | some j =>
      have htr : truthy j = false := by
        have := hf
        rw [h] at this
        simpa [jsFalsyResult] using this
      rw [fileAnalysisStep_of_some ht h, htr]
      simp
  refine ⟨fun p d g => rfl, ?_, ?_, ?_, ?_, ?_, ?_, ?_, ?_, ?_⟩
  · intro f p d g h1 h2
    exact handleAnalyzeFile_other h1 h2
  · intro f p d g hm hp
    rw [handleAnalyzeFile_pdf hm, hp]
  · intro f p d g hm hd
    rw [handleAnalyzeFile_docx hm, hd]
  · intro f p d g hm hp
    rw [handleAnalyzeFile_pdf hm, hp]
    exact rfl
  · intro f p d g hm hd
    rw [handleAnalyzeFile_docx hm, hd]
    exact rfl
  · intro f p d g t hm hp ht hf
    rw [handleAnalyzeFile_pdf hm, hp]
    exact falsyStep g t ht hf
  · intro f p d g t hm hd ht hf
    rw [handleAnalyzeFile_docx hm, hd]
    exact falsyStep g t ht hf
  · intro f p d g t j hm hp ht h htr
    rw [handleAnalyzeFile_pdf hm, hp]
    show fileAnalysisStep g t = _
    rw [fileAnalysisStep_of_some ht h, htr]
    simp
  · intro f p d g t j hm hd ht h htr
    rw [handleAnalyzeFile_docx hm, hd]
    show fileAnalysisStep g t = _
    rw [fileAnalysisStep_of_some ht h, htr]
    simp

/-- C3 (witness): the amended theorem applied at concrete requests for the
no-file, unsupported-type and decoder-exception branches. -/
theorem c3_witness :
    handleAnalyzeFile none (fun _ => DecodeOutcome.exn) (fun _ => DecodeOutcome.exn)
      (fun _ => ModelOutcome.failure) =
      Response.mk 400 (ResponseBody.error "No file uploaded.") ∧
    handleAnalyzeFile (some (UploadedFile.mk "text/plain" [1, 2]))
      (fun _ => DecodeOutcome.ok "r") (fun _ => DecodeOutcome.ok "r")
      (fun _ => ModelOutcome.failure) =
      Response.mk 400 (ResponseBody.error "Unsupported file type. Please upload a PDF or DOCX file.") ∧
    handleAnalyzeFile (some (UploadedFile.mk "application/pdf" []))
      (fun _ => DecodeOutcome.exn) (fun _ => DecodeOutcome.ok "r")
      (fun _ => ModelOutcome.failure) =
      Response.mk 500 (ResponseBody.error "An internal server error occurred.") :=
  ⟨c3_thm.1 _ _ _,
   c3_thm.2.1 _ _ _ _ (by decide) (by decide),
   c3_thm.2.2.1 _ _ _ _ rfl rfl⟩

/-- C5 (confirmed): any failure of the external model call (the
collaborator outcome `failure`, covering network, quota and every other
thrown exception) makes `analyzeResumeText` return null rather than
propagate, and then the endpoint used responds 500 with its own message:
the text-route message on /api/analyze-text and the file-route message on
/api/analyze-file. -/
theorem c5_thm :
    (∀ (g : String → ModelOutcome) (text : String),
      g (buildPrompt text) = ModelOutcome.failure →
      analyzeResumeText g text = none) ∧
    (∀ (g : String → ModelOutcome) (s : String), s ≠ "" →
      g (buildPrompt s) = ModelOutcome.failure →
      handleAnalyzeText (some s) g =
        Response.mk 500 (ResponseBody.error "Failed to analyze resume from text.")) ∧
    (∀ (f : UploadedFile) (p d : List Nat → DecodeOutcome)
      (g : String → ModelOutcome) (t : String),
      f.mimetype = "application/pdf" → p f.buffer = DecodeOutcome.ok t → t ≠ "" →
      g (buildPrompt t) = ModelOutcome.failure →
      handleAnalyzeFile (some f) p d g =
        Response.mk 500 (ResponseBody.error "Failed to analyze resume from file.")) ∧
    (∀ (f : UploadedFile) (p d : List Nat → DecodeOutcome)
      (g : String → ModelOutcome) (t : String),
      f.mimetype = "application/vnd.openxmlformats-officedocument.wordprocessingml.document" →
      d f.buffer = DecodeOutcome.ok t → t ≠ "" →
      g (buildPrompt t) = ModelOutcome.failure →
      handleAnalyzeFile (some f) p d g =
        Response.mk 500 (ResponseBody.error "Failed to analyze resume from file.")) := by
  have hnull : ∀ (g : String → ModelOutcome) (text : String),
      g (buildPrompt text) = ModelOutcome.failure → analyzeResumeText g text = none := by
    intro g text h
    simp [analyzeResumeText, h]
  refine ⟨hnull, ?_, ?_, ?_⟩
  · intro g s hs hg
    exact handleAnalyzeText_of_none hs (hnull g s hg)
  · intro f p d g t hm hp ht hg
    rw [handleAnalyzeFile_pdf hm, hp]
    exact fileAnalysisStep_of_none ht (hnull g t hg)
  · intro f p d g t hm hd ht hg
    rw [handleAnalyzeFile_docx hm, hd]
    exact fileAnalysisStep_of_none ht (hnull g t hg)

/-- C5 (witness): the theorem applied with a collaborator that always
fails, on both routes. -/
theorem c5_witness :
    analyzeResumeText (fun _ => ModelOutcome.failure) "x" = none ∧
    handleAnalyzeText (some "x") (fun _ => ModelOutcome.failure) =
      Response.mk 500 (ResponseBody.error "Failed to analyze resume from text.") ∧
    handleAnalyzeFile (some (UploadedFile.mk "application/pdf" []))
      (fun _ => DecodeOutcome.ok "y") (fun _ => DecodeOutcome.exn)
      (fun _ => ModelOutcome.failure) =
      Response.mk 500 (ResponseBody.error "Failed to analyze resume from file.") :=
  ⟨c5_thm.1 (fun _ => ModelOutcome.failure) "x" rfl,
   c5_thm.2.1 (fun _ => ModelOutcome.failure) "x" (by decide) rfl,
   c5_thm.2.2.1 (UploadedFile.mk "application/pdf" []) _ _
     (fun _ => ModelOutcome.failure) "y" rfl rfl (by decide) rfl⟩

/-- C7 (confirmed): decoder selection depends only on the caller-declared
media type: exactly the PDF media type routes the buffer to the PDF
decoder (the DOCX decoder and the bytes themselves play no role in the
selection), exactly the DOCX media type routes it to the DOCX raw-text
decoder, and every other declared media type yields the 400
unsupported-file-type response rather than an exception, regardless of the
bytes, the decoders and the model. -/
theorem c7_thm :
    (∀ (b : List Nat) (p d : List Nat → DecodeOutcome) (g : String → ModelOutcome),
      handleAnalyzeFile (some (UploadedFile.mk "application/pdf" b)) p d g =
        (match p b with
         | DecodeOutcome.exn =>
           Response.mk 500 (ResponseBody.error "An internal server error occurred.")
         | DecodeOutcome.ok t => fileAnalysisStep g t)) ∧
    (∀ (b : List Nat) (p d : List Nat → DecodeOutcome) (g : String → ModelOutcome),
      handleAnalyzeFile
        (some (UploadedFile.mk
          "application/vnd.openxmlformats-officedocument.wordprocessingml.document" b))
        p d g =
        (match d b with
         | DecodeOutcome.exn =>
           Response.mk 500 (ResponseBody.error "An internal server error occurred.")
         | DecodeOutcome.ok t => fileAnalysisStep g t)) ∧
    (∀ (f : UploadedFile) (p d : List Nat → DecodeOutcome) (g : String → ModelOutcome),
      f.mimetype ≠ "application/pdf" →
      f.mimetype ≠ "application/vnd.openxmlformats-officedocument.wordprocessingml.document" →
      handleAnalyzeFile (some f) p d g =
        Response.mk 400 (ResponseBody.error "Unsupported file type. Please upload a PDF or DOCX file.")) := by
  refine ⟨?_, ?_, ?_⟩
  · intro b p d g
    exact handleAnalyzeFile_pdf rfl
  · intro b p d g
    exact handleAnalyzeFile_docx rfl
  · intro f p d g h1 h2
    exact handleAnalyzeFile_other h1 h2

/-- C7 (witness): the theorem applied to a concrete text/plain upload and
a concrete PDF upload. -/
theorem c7_witness :
    handleAnalyzeFile (some (UploadedFile.mk "text/plain" [0]))
      (fun _ => DecodeOutcome.ok "r") (fun _ => DecodeOutcome.ok "r")
      (fun _ => ModelOutcome.failure) =
      Response.mk 400 (ResponseBody.error "Unsupported file type. Please upload a PDF or DOCX file.") ∧
    handleAnalyzeFile (some (UploadedFile.mk "application/pdf" [0]))
      (fun _ => DecodeOutcome.exn) (fun _ => DecodeOutcome.ok "r")
      (fun _ => ModelOutcome.failure) =
      Response.mk 500 (ResponseBody.error "An internal server error occurred.") :=
  ⟨c7_thm.2.2 (UploadedFile.mk "text/plain" [0]) _ _ _ (by decide) (by decide),
   c7_thm.1 [0] (fun _ => DecodeOutcome.exn) (fun _ => DecodeOutcome.ok "r")
     (fun _ => ModelOutcome.failure)⟩

/-- C8 (counterexample): an environment in which GEMINI_API_KEY is present
but bound to the empty string also terminates the process fatally, so the
absence of the credential is not the only fatal startup condition. -/
theorem c8_counterexample :
    startup (Env.mk (some "") none) = StartupResult.exit 1 ∧
    (some "" : Option String) ≠ none :=
  ⟨rfl, by decide⟩

/-- C8 (amended): at startup the process exits fatally (code 1) exactly
when GEMINI_API_KEY is absent from the environment or set to the empty
string (a falsy value); with any nonempty credential it serves, and the
listening port defaults to 3000 when the PORT variable is unset. -/
theorem c8_thm (env : Env) :
    (startup env = StartupResult.exit 1 ↔
      env.GEMINI_API_KEY = none ∨ env.GEMINI_API_KEY = some "") ∧
    (∀ k, env.GEMINI_API_KEY = some k → k ≠ "" →
      startup env = StartupResult.listen (port env)) ∧
    (env.PORT = none → port env = PortValue.num 3000) := by
  obtain ⟨key, prt⟩ := env
  refine ⟨?_, ?_, ?_⟩
  · cases key with
    | none => simp [startup]
    | some k =>
      by_cases hk : k = ""
      · subst hk
        simp [startup]
      · simp [startup, hk]
  · intro k hk hne
    cases hk
    simp [startup, hne]
  · intro h
    cases h
    rfl

/-- C8 (witness): the amended theorem applied to a concrete environment
with a nonempty credential and no PORT variable. -/
theorem c8_witness :
    startup (Env.mk (some "k") none) = StartupResult.listen (PortValue.num 3000) ∧
    port (Env.mk (some "k") none) = PortValue.num 3000 :=
  ⟨(c8_thm (Env.mk (some "k") none)).2.1 "k" rfl (by decide),
   (c8_thm (Env.mk (some "k") none)).2.2 rfl⟩

/-- C9 (confirmed): when the model reply's recovered JSON value is falsy
(the JSON texts null, false, 0 or the empty string), both endpoints treat
it as an analysis failure — 500 with the route's analysis-failure message,
the text route's response being identical to the one for a model-call
failure; conversely any truthy recovered value, of whatever shape, is
returned as 200 with that value on both routes. -/
theorem c9_thm (reply : String) (v : Json) (g : String → ModelOutcome)
    (s : String) (f : UploadedFile) (p d : List Nat → DecodeOutcome)
    (hrec : extractJson reply = some v) (hs : s ≠ "")
    (hg : g (buildPrompt s) = ModelOutcome.success reply)
    (hf : f.mimetype = "application/pdf") (hp : p f.buffer = DecodeOutcome.ok s) :
    (truthy v = false →
      handleAnalyzeText (some s) g =
        Response.mk 500 (ResponseBody.error "Failed to analyze resume from text.") ∧
      handleAnalyzeText (some s) g =
        handleAnalyzeText (some s) (fun _ => ModelOutcome.failure) ∧
      handleAnalyzeFile (some f) p d g =
        Response.mk 500 (ResponseBody.error "Failed to analyze resume from file.")) ∧
    (truthy v = true →
      handleAnalyzeText (some s) g = Response.mk 200 (ResponseBody.analysis v) ∧
      handleAnalyzeFile (some f) p d g = Response.mk 200 (ResponseBody.analysis v)) := by
  have ha : analyzeResumeText g s = some v := by
    simp [analyzeResumeText, hg, hrec]
  constructor
  · intro hv
    have htext : handleAnalyzeText (some s) g =
        Response.mk 500 (ResponseBody.error "Failed to analyze resume from text.") := by
      rw [handleAnalyzeText_of_some hs ha, hv]
      simp
    have hfail : handleAnalyzeText (some s) (fun _ => ModelOutcome.failure) =
        Response.mk 500 (ResponseBody.error "Failed to analyze resume from text.") := by
      have : analyzeResumeText (fun _ => ModelOutcome.failure) s = none := rfl
      exact handleAnalyzeText_of_none hs this
    refine ⟨htext, htext.trans hfail.symm, ?_⟩
    rw [handleAnalyzeFile_pdf hf, hp]
    show fileAnalysisStep g s = _
    rw [fileAnalysisStep_of_some hs ha, hv]
    simp
  · intro hv
    constructor
    · rw [handleAnalyzeText_of_some hs ha, hv]
      simp
    · rw [handleAnalyzeFile_pdf hf, hp]
      show fileAnalysisStep g s = _
      rw [fileAnalysisStep_of_some hs ha, hv]
      simp

/-- C9 (witness): the theorem applied to the falsy recovered value 0 and,
separately, to the truthy recovered array value. -/
theorem c9_witness :
    handleAnalyzeText (some "x") (fun _ => ModelOutcome.success "0") =
      Response.mk 500 (ResponseBody.error "Failed to analyze resume from text.") ∧
    handleAnalyzeFile (some (UploadedFile.mk "application/pdf" []))
      (fun _ => DecodeOutcome.ok "x") (fun _ => DecodeOutcome.exn)
      (fun _ => ModelOutcome.success "[1]") =
      Response.mk 200 (ResponseBody.analysis (Json.arr [Json.num 1 0])) :=
  ⟨((c9_thm "0" (Json.num 0 0) (fun _ => ModelOutcome.success "0") "x"
      (UploadedFile.mk "application/pdf" []) (fun _ => DecodeOutcome.ok "x")
      (fun _ => DecodeOutcome.exn) rfl (by decide) rfl rfl rfl).1 rfl).1,
   ((c9_thm "[1]" (Json.arr [Json.num 1 0]) (fun _ => ModelOutcome.success "[1]") "x"
      (UploadedFile.mk "application/pdf" []) (fun _ => DecodeOutcome.ok "x")
      (fun _ => DecodeOutcome.exn) rfl (by decide) rfl rfl rfl).2 rfl).2⟩
